import Mathlib

/-!
Shallow embedding of `src/smol_k8s_lab/tui/app_widgets/input_widgets.py`
(smol_k8s_homelab): the two widget classes
`SmolK8sLabCollapsibleInputsWidget` and `SmolK8sLabInputsWidget`, which
materialize a mapping of input keys to editable rows and reconcile edits
back into the shared YAML config document (`self.app.cfg`) and the
screen-scoped cache of sensitive values (`self.screen.sensitive_values`).

Python strings are modelled as Lean `String`; Python string helpers that
are defined with well-founded recursion in Lean core are re-implemented
over `List Char` so that every definition evaluates by kernel reduction.
Mappings reached by key lookup (`dict.get`, `dict[k]`) are modelled as
functions into `Option`.
-/

/-- Python `sep.join(xs)`: concatenate the strings of `xs` with `sep`
between consecutive elements. -/
def str_join (sep : String) : List String → String
  | [] => ""
  | [x] => x
  | x :: y :: xs => x ++ sep ++ str_join sep (y :: xs)

/-- Split a character list at every comma, keeping empty segments,
as Python `s.split(",")` does. -/
def splitCommas : List Char → List (List Char)
  | [] => [[]]
  | c :: rest =>
    let r := splitCommas rest
    if c = ',' then [] :: r
    else (c :: r.headD []) :: r.tail

/-- Python `s.strip()`: remove leading and trailing whitespace. -/
def trimChars (l : List Char) : List Char :=
  ((l.dropWhile Char.isWhitespace).reverse.dropWhile Char.isWhitespace).reverse

/-- Modelled from the spec: `create_sanitized_list` lives in
`smol_k8s_lab.tui.util`, which is not part of the reviewed source tree.
The spec describes it as `sanitizeToList(rawString)`: split the raw
string on commas, trim each element, and drop empty elements. -/
def create_sanitized_list (s : String) : List String :=
  (((splitCommas s.data).map fun l => String.mk (trimChars l)).filter
    fun e => e ≠ "")

/-- Python `s.upper()` restricted to ASCII, matching the app-name and
key strings the widgets uppercase. -/
def py_upper (s : String) : String :=
  String.mk (s.data.map Char.toUpper)

/-- Python `key.replace("_", " ")` for the single-character pattern
used by the widgets. -/
def underscore_to_space (key : String) : String :=
  String.mk (key.data.map fun c => if c = '_' then ' ' else c)

/-- Python `"," in s` for the single-character needle used by
`input_validation`. -/
def contains_comma (s : String) : Bool :=
  s.data.contains ','

/-- The one validator attached to every input row is
`Length(minimum=2)`: a value is valid iff its length is at least 2. -/
def length2_valid (s : String) : Bool :=
  decide (2 ≤ s.length)

/-- A structured secret reference: a YAML mapping (modelled as an
association list) describing where to fetch a secret, resolved by the
external `extract_secret`. -/
abbrev SecretRef := List (String × String)

/-- The domain of raw source values a row can be generated from: a plain
scalar string, a sequence of strings, a sequence of sequences (ruamel
`CommentedSeq` nesting), or a structured secret reference.  The absent
case of the spec corresponds to the source signature default
`value: str = ""`, i.e. `InputValue.str ""`. -/
inductive InputValue where
  | str (s : String)
  | seq (l : List String)
  | seqOfSeq (l : List (List String))
  | secret (r : SecretRef)
deriving DecidableEq

/-- Python truthiness of a raw value, deciding `if value:` in
`generate_input_row`. -/
def truthy : InputValue → Bool
  | .str s => !(s == "")
  | .seq l => !l.isEmpty
  | .seqOfSeq l => !l.isEmpty
  | .secret r => !r.isEmpty

/-- The observable result of building one input row: the name of the
`Input` widget, the row label text, the placeholder, the string value of
the widget, its password (sensitivity) flag, its tooltip, and the result of the
immediate `input.validate(value)` call on the displayed value. -/
structure InputField where
  name : String
  label : String
  placeholder : String
  value : String
  password : Bool
  tooltip : String
  initial_valid : Bool
deriving DecidableEq

/-- Suffix appended to every tooltip when the app name is `metallb`. -/
def metallb_tooltip_suffix : String :=
  " Be sure the ip addresses you enter already have DNS entries for any apps you\x27d like to deploy."

/-- Tooltip synthesized for sensitive fields, naming the environment
variable `APPNAME_KEY` (both uppercased, joined by an underscore). -/
def sensitive_tooltip (app_name key : String) : String :=
  "To avoid needing to fill in this value manually, you can export $" ++
    str_join "_" [py_upper app_name, py_upper key] ++
    " as an environment variable."

/-- Fixed tooltip for the field name `s3_provider`. -/
def s3_provider_tooltip : String :=
  "Choose between minio and seaweedfs for a local s3 provider"

/--
`SmolK8sLabCollapsibleInputsWidget.generate_input_row`.

`pg` is the external `placeholder_grammar` helper (in
`smol_k8s_lab.tui.util`, outside the reviewed source) and `es` is the
external `extract_secret` helper; both are parameters.  `tooltips` is the
tooltip mapping of the widget, as a function into `Option`.

The collapsible variant leaves the `password` entry of `input_keys`
unset when the raw value is falsy; reading it during tooltip resolution
then raises `KeyError`, modelled by returning `none`.
-/
def collapsible_generate_input_row (pg : String → String) (es : SecretRef → String)
    (app_name : String) (tooltips : String → Option String)
    (key : String) (value : InputValue) : Option InputField :=
  let key_label := underscore_to_space key
  let placeholder_txt := pg key_label
  -- `input_keys["password"]` (unset = `none`) and the reassigned local `value`
  let state : Option Bool × String :=
    if truthy value then
      match value with
      | .seq l => (some false, str_join ", " l)
      | .seqOfSeq l => (some false, str_join ", " (l.headD []))
      | .secret r => (some true, es r)
      | .str s => (some false, s)
    else (none, "")
  let password := state.1
  let displayed := state.2
  -- tooltip = self.tooltips.get(key, None); if not tooltip: ...
  let chosen : Option String :=
    match tooltips key with
    | some t =>
      if t == "" then
        match password with
        | none => none
        | some true => some (sensitive_tooltip app_name key)
        | some false =>
          if key == "s3_provider" then some s3_provider_tooltip
          else some (placeholder_txt ++ ".")
      else some t
    | none =>
      match password with
      | none => none
      | some true => some (sensitive_tooltip app_name key)
      | some false =>
        if key == "s3_provider" then some s3_provider_tooltip
        else some (placeholder_txt ++ ".")
  match chosen with
  | none => none
  | some t =>
    let tooltip := if app_name == "metallb" then t ++ metallb_tooltip_suffix else t
    some { name := key, label := key_label, placeholder := placeholder_txt,
           value := displayed, password := password.getD false,
           tooltip := tooltip, initial_valid := length2_valid displayed }

/--
`SmolK8sLabInputsWidget.generate_input_row`: identical to the collapsible
variant except `input_keys` pre-initializes `password` to `False` and the
widget value is assigned unconditionally, so row construction is total.
-/
def flat_generate_input_row (pg : String → String) (es : SecretRef → String)
    (app_name : String) (tooltips : String → Option String)
    (key : String) (value : InputValue) : InputField :=
  let key_label := underscore_to_space key
  let placeholder_txt := pg key_label
  let state : Bool × String :=
    if truthy value then
      match value with
      | .seq l => (false, str_join ", " l)
      | .seqOfSeq l => (false, str_join ", " (l.headD []))
      | .secret r => (true, es r)
      | .str s => (false, s)
    else (false, "")
  let password := state.1
  let displayed := state.2
  let chosen : String :=
    match tooltips key with
    | some t =>
      if t == "" then
        if password then sensitive_tooltip app_name key
        else if key == "s3_provider" then s3_provider_tooltip
        else placeholder_txt ++ "."
      else t
    | none =>
      if password then sensitive_tooltip app_name key
      else if key == "s3_provider" then s3_provider_tooltip
      else placeholder_txt ++ "."
  let tooltip := if app_name == "metallb" then chosen ++ metallb_tooltip_suffix else chosen
  { name := key, label := key_label, placeholder := placeholder_txt,
    value := displayed, password := password,
    tooltip := tooltip, initial_valid := length2_valid displayed }

/-- `SmolK8sLabCollapsibleInputsWidget.on_mount`: one row per entry of
the inputs mapping, in iteration order; `none` if any row construction
raises. -/
def collapsible_on_mount (pg : String → String) (es : SecretRef → String)
    (app_name : String) (tooltips : String → Option String)
    (inputs : List (String × InputValue)) : Option (List InputField) :=
  inputs.mapM fun kv => collapsible_generate_input_row pg es app_name tooltips kv.1 kv.2

/-- `SmolK8sLabInputsWidget.on_mount`: one row per entry of the inputs
mapping except the key `trusted_key_servers`, which is skipped. -/
def flat_on_mount (pg : String → String) (es : SecretRef → String)
    (app_name : String) (tooltips : String → Option String)
    (inputs : List (String × InputValue)) : List InputField :=
  (inputs.filter fun kv => !(kv.1 == "trusted_key_servers")).map
    fun kv => flat_generate_input_row pg es app_name tooltips kv.1 kv.2

/-- A value stored under `ConfigDocument[app].init.values[name]`: either a
scalar string or a list of strings (the output of
`create_sanitized_list`). -/
inductive ConfigValue where
  | str (s : String)
  | list (l : List String)
deriving DecidableEq

/-- The mutable state the change handlers touch: the config document
mappings `apps.<app>.init.values` and `apps.<app>.init.<switch>` booleans
(`self.app.cfg`), the screen-scoped sensitive-value cache
(`self.screen.sensitive_values`), and the `bell_on_error` option. -/
structure WidgetState where
  cfgValues : String → String → Option ConfigValue
  cfgInit : String → String → Option Bool
  sensitive_values : String → String → Option String
  bell_on_error : Bool

/-- `self.app.cfg["apps"][app]["init"]["values"][name] = v`. -/
def setValue (σ : WidgetState) (app name : String) (v : ConfigValue) : WidgetState :=
  { σ with cfgValues := fun a n =>
      if a == app && n == name then some v else σ.cfgValues a n }

/-- `self.app.cfg["apps"][app]["init"][name] = b`. -/
def setInit (σ : WidgetState) (app name : String) (b : Bool) : WidgetState :=
  { σ with cfgInit := fun a n =>
      if a == app && n == name then some b else σ.cfgInit a n }

/-- `self.screen.sensitive_values[app][name] = v`. -/
def setSensitive (σ : WidgetState) (app name v : String) : WidgetState :=
  { σ with sensitive_values := fun a n =>
      if a == app && n == name then some v else σ.sensitive_values a n }

/-- The externally observable side effects a handler can request, in
order: persisting the config document (`self.app.write_yaml()`), a user
notification (`self.notify` / `self.app.notify`), the alert bell
(`self.app.bell()`), and a debug log line (`self.log`). -/
inductive Effect where
  | write_yaml
  | notify (message severity title : String)
  | bell
  | log (message : String)
deriving DecidableEq

/-- Whether an effect is an informational notification (the Textual
default severity `"information"`, used by the bare `self.app.notify(...)` call). -/
def is_informational : Effect → Bool
  | .notify _ severity _ => severity == "information"
  | _ => false

/-- The data of a Textual `Input.Changed` event as the handler reads it:
the `name` of the input, its current string `value`, its `password` flag, and the
attached `validation_result` (`is_valid` plus the failure
descriptions). -/
structure InputChangedEvent where
  name : String
  value : String
  password : Bool
  is_valid : Bool
  failures : List String

/-- Link between the validation result of the event and the only row
validator `Length(minimum=2)`: the framework computes `is_valid` by
running that validator on the value. -/
def event_from_length_validator (e : InputChangedEvent) : Prop :=
  e.is_valid = length2_valid e.value

/-- The data of a Textual `Switch.Changed` event: the `name` of the
switch and the new boolean `value`. -/
structure SwitchChangedEvent where
  name : String
  value : Bool

/-- Title of the warning notification emitted on validation failure. -/
def validation_error_title : String :=
  "⚠️ Input Validation Error\n"

/-- `SmolK8sLabCollapsibleInputsWidget.input_validation`: the
`Input.Changed` handler.  Returns the updated state and the list of
requested side effects in program order. -/
def collapsible_input_validation (app_name : String) (σ : WidgetState)
    (e : InputChangedEvent) : WidgetState × List Effect :=
  if e.is_valid then
    if e.is_valid then
      let σ1 :=
        if ["metallb", "vouch"].contains app_name || contains_comma e.value then
          setValue σ app_name e.name (ConfigValue.list (create_sanitized_list e.value))
        else
          if !e.password then
            setValue σ app_name e.name (ConfigValue.str e.value)
          else σ
      if !e.password then
        (σ1, [Effect.write_yaml])
      else
        (setSensitive σ1 app_name e.name e.value,
         [Effect.log ("saving special value for " ++ e.name ++ " to screen cache")])
    else (σ, [])
  else
    (σ, (if σ.bell_on_error then [Effect.bell] else []) ++
        [Effect.notify (str_join "\n" e.failures) "warning" validation_error_title])

/-- `SmolK8sLabInputsWidget.input_validation`: textually identical to the
handler of the collapsible variant. -/
def flat_input_validation (app_name : String) (σ : WidgetState)
    (e : InputChangedEvent) : WidgetState × List Effect :=
  if e.is_valid then
    if e.is_valid then
      let σ1 :=
        if ["metallb", "vouch"].contains app_name || contains_comma e.value then
          setValue σ app_name e.name (ConfigValue.list (create_sanitized_list e.value))
        else
          if !e.password then
            setValue σ app_name e.name (ConfigValue.str e.value)
          else σ
      if !e.password then
        (σ1, [Effect.write_yaml])
      else
        (setSensitive σ1 app_name e.name e.value,
         [Effect.log ("saving special value for " ++ e.name ++ " to screen cache")])
    else (σ, [])
  else
    (σ, (if σ.bell_on_error then [Effect.bell] else []) ++
        [Effect.notify (str_join "\n" e.failures) "warning" validation_error_title])

/-- Informational notice emitted when the `create_minio_tenant` switch is
turned on. -/
def minio_tenant_notice : String :=
  "💡Make sure Argo CD directory recursion is switched on."

/-- `SmolK8sLabCollapsibleInputsWidget.update_base_yaml_for_switch`: the
`Switch.Changed` handler. -/
def collapsible_update_base_yaml_for_switch (app_name : String) (σ : WidgetState)
    (e : SwitchChangedEvent) : WidgetState × List Effect :=
  (setInit σ app_name e.name e.value,
   [Effect.write_yaml] ++
     (if e.value && e.name == "create_minio_tenant" then
        [Effect.notify minio_tenant_notice "information" ""]
      else []))

/-- `SmolK8sLabInputsWidget.update_base_yaml_for_switch`: textually
identical to the handler of the collapsible variant. -/
def flat_update_base_yaml_for_switch (app_name : String) (σ : WidgetState)
    (e : SwitchChangedEvent) : WidgetState × List Effect :=
  (setInit σ app_name e.name e.value,
   [Effect.write_yaml] ++
     (if e.value && e.name == "create_minio_tenant" then
        [Effect.notify minio_tenant_notice "information" ""]
      else []))

/-- Help-text resolution as the spec states it (amended to require the
explicit tooltip to be non-empty): a non-empty explicit tooltip wins;
otherwise a sensitive field gets the environment-variable guidance;
otherwise the key `s3_provider` gets its fixed message; otherwise a
phrase generated from the label; and for the owner `metallb` the DNS
warning suffix is appended to whichever text was chosen. -/
def help_text_spec (pg : String → String) (app_name key : String)
    (explicit : Option String) (sensitive : Bool) : String :=
  let base :=
    match explicit with
    | some t =>
      if t ≠ "" then t
      else if sensitive then sensitive_tooltip app_name key
      else if key = "s3_provider" then s3_provider_tooltip
      else pg (underscore_to_space key) ++ "."
    | none =>
      if sensitive then sensitive_tooltip app_name key
      else if key = "s3_provider" then s3_provider_tooltip
      else pg (underscore_to_space key) ++ "."
  if app_name = "metallb" then base ++ metallb_tooltip_suffix else base

/-- An empty starting state used by concrete witnesses. -/
def emptyState : WidgetState :=
  { cfgValues := fun _ _ => none
    cfgInit := fun _ _ => none
    sensitive_values := fun _ _ => none
    bell_on_error := false }

/-- Whenever the collapsible variant successfully constructs a row, the
flat variant constructs exactly the same field from the same inputs. -/
theorem row_agrees (pg : String → String) (es : SecretRef → String)
    (app_name : String) (tooltips : String → Option String)
    (key : String) (v : InputValue) (f : InputField)
    (h : collapsible_generate_input_row pg es app_name tooltips key v = some f) :
    flat_generate_input_row pg es app_name tooltips key v = f := by
  cases ht : truthy v <;>
    cases v <;>
      simp only [collapsible_generate_input_row, flat_generate_input_row, ht,
        if_true, if_false, Bool.false_eq_true, Bool.true_eq_false] at h ⊢ <;>
    cases htt : tooltips key <;>
      simp only [htt] at h ⊢ <;>
    split_ifs at h ⊢ <;> simp_all

/-- The tooltip the flat variant computes agrees with the declarative
help-text resolution `help_text_spec`. -/
theorem flat_tooltip_eq_spec (pg : String → String) (es : SecretRef → String)
    (app_name : String) (tooltips : String → Option String)
    (key : String) (v : InputValue) :
    (flat_generate_input_row pg es app_name tooltips key v).tooltip
      = help_text_spec pg app_name key (tooltips key)
          (flat_generate_input_row pg es app_name tooltips key v).password := by
  cases ht : truthy v <;>
    cases v <;>
      simp only [flat_generate_input_row, help_text_spec, ht,
        if_true, if_false, Bool.false_eq_true, Bool.true_eq_false] <;>
    cases htt : tooltips key <;>
      simp only [htt] <;>
    split_ifs <;> simp_all

/-- When an inputs mapping contains no `trusted_key_servers` key and the
collapsible variant mounts it successfully, the flat variant mounts the
same sequence of fields. -/
theorem on_mount_agrees (pg : String → String) (es : SecretRef → String)
    (app_name : String) (tooltips : String → Option String) :
    ∀ (inputs : List (String × InputValue)) (fs : List InputField),
      (∀ kv ∈ inputs, kv.1 ≠ "trusted_key_servers") →
      collapsible_on_mount pg es app_name tooltips inputs = some fs →
      flat_on_mount pg es app_name tooltips inputs = fs := by
  intro inputs
  induction inputs with
  | nil =>
    intro fs _ h
    simp only [collapsible_on_mount, List.mapM_nil, pure, Option.some.injEq] at h
    simp [flat_on_mount, ← h]
  | cons kv rest ih =>
    intro fs hkeys h
    simp only [collapsible_on_mount, List.mapM_cons, Option.pure_def,
      Option.bind_eq_bind, Option.bind_eq_some, Option.some.injEq] at h
    obtain ⟨f, hf, fs', hfs', hcons⟩ := h
    have hkv : kv.1 ≠ "trusted_key_servers" := hkeys kv (List.mem_cons_self kv rest)
    have hrest := ih fs' (fun x hx => hkeys x (List.mem_cons_of_mem kv hx)) hfs'
    simp only [flat_on_mount, List.filter_cons] at hrest ⊢
    have hkvb : (!(kv.1 == "trusted_key_servers")) = true := by
      simpa using hkv
    rw [hkvb]
    simp only [if_true, List.map_cons, ← hcons]
    rw [row_agrees pg es app_name tooltips kv.1 kv.2 f hf]
    simpa [flat_on_mount] using hrest

/-- Claim C3: an edit whose value fails the `Length(minimum=2)` validator
mutates nothing — both variants leave the whole state (ConfigDocument and
SensitiveCache) unchanged, request no persistence, emit a warning
notification listing all failure descriptions, and ring the bell iff the
bell-on-error option is configured. -/
theorem invalid_edit_performs_no_mutation (app_name : String) (σ : WidgetState)
    (e : InputChangedEvent) (hv : event_from_length_validator e)
    (hlen : e.value.length < 2) :
    (collapsible_input_validation app_name σ e).1 = σ ∧
    (flat_input_validation app_name σ e).1 = σ ∧
    Effect.write_yaml ∉ (collapsible_input_validation app_name σ e).2 ∧
    Effect.write_yaml ∉ (flat_input_validation app_name σ e).2 ∧
    Effect.notify (str_join "\n" e.failures) "warning" validation_error_title
      ∈ (collapsible_input_validation app_name σ e).2 ∧
    Effect.notify (str_join "\n" e.failures) "warning" validation_error_title
      ∈ (flat_input_validation app_name σ e).2 ∧
    (Effect.bell ∈ (collapsible_input_validation app_name σ e).2 ↔ σ.bell_on_error = true) ∧
    (Effect.bell ∈ (flat_input_validation app_name σ e).2 ↔ σ.bell_on_error = true) := by
  have hfalse : e.is_valid = false := by
    rw [hv]
    simp only [length2_valid, decide_eq_false_iff_not]
    omega
  unfold collapsible_input_validation flat_input_validation
  rw [hfalse]
  by_cases hb : σ.bell_on_error <;> simp [hb]

/-- Claim C3 witness: the length-1 value `"a"` leaves the state exactly
unchanged. -/
theorem invalid_edit_witness :
    (collapsible_input_validation "argocd" emptyState
        { name := "hostname", value := "a", password := false, is_valid := false,
          failures := ["Value must be at least 2 characters"] }).1 = emptyState :=
  (invalid_edit_performs_no_mutation "argocd" emptyState
    { name := "hostname", value := "a", password := false, is_valid := false,
      failures := ["Value must be at least 2 characters"] } rfl (by decide)).1

/-- Claim C4: a valid, non-sensitive edit for an owner outside the
always-list-coerce set whose value has no comma stores the scalar string
unchanged and requests persistence exactly once, in both variants. -/
theorem scalar_edit_stores_scalar_and_persists_once (app_name : String)
    (σ : WidgetState) (e : InputChangedEvent)
    (hvalid : e.is_valid = true) (hpw : e.password = false)
    (happ : ["metallb", "vouch"].contains app_name = false)
    (hcomma : contains_comma e.value = false) :
    ((collapsible_input_validation app_name σ e).1.cfgValues app_name e.name
      = some (ConfigValue.str e.value)) ∧
    (collapsible_input_validation app_name σ e).2 = [Effect.write_yaml] ∧
    ((flat_input_validation app_name σ e).1.cfgValues app_name e.name
      = some (ConfigValue.str e.value)) ∧
    (flat_input_validation app_name σ e).2 = [Effect.write_yaml] := by
  unfold collapsible_input_validation flat_input_validation
  rw [hvalid, hpw, happ, hcomma]
  simp [setValue]

/-- Claim C4 witness: owner `argocd`, input `"hello"` stores the scalar
`"hello"`. -/
theorem scalar_edit_witness :
    (collapsible_input_validation "argocd" emptyState
        { name := "hostname", value := "hello", password := false, is_valid := true,
          failures := [] }).1.cfgValues "argocd" "hostname"
      = some (ConfigValue.str "hello") :=
  (scalar_edit_stores_scalar_and_persists_once "argocd" emptyState
    { name := "hostname", value := "hello", password := false, is_valid := true,
      failures := [] } rfl rfl (by decide) (by decide)).1

/-- Claim C2: a valid, non-sensitive edit whose owner is in the
always-list-coerce set `{metallb, vouch}` or whose raw value contains a
comma stores the sanitized list (split on commas, trim, drop empties)
into the config document, in both variants, and persists. -/
theorem list_coercion_stores_sanitized_list (app_name : String)
    (σ : WidgetState) (e : InputChangedEvent)
    (hvalid : e.is_valid = true) (hpw : e.password = false)
    (hcoerce : (["metallb", "vouch"].contains app_name || contains_comma e.value) = true) :
    ((collapsible_input_validation app_name σ e).1.cfgValues app_name e.name
      = some (ConfigValue.list (create_sanitized_list e.value))) ∧
    (collapsible_input_validation app_name σ e).2 = [Effect.write_yaml] ∧
    ((flat_input_validation app_name σ e).1.cfgValues app_name e.name
      = some (ConfigValue.list (create_sanitized_list e.value))) ∧
    (flat_input_validation app_name σ e).2 = [Effect.write_yaml] := by
  unfold collapsible_input_validation flat_input_validation
  rw [hvalid, hpw, hcoerce]
  simp [setValue]

/-- Claim C2 witness: owner `metallb` with raw input `"1.2.3.4,5.6.7.8"`
stores the list `["1.2.3.4", "5.6.7.8"]`, not the raw string. -/
theorem list_coercion_witness :
    (collapsible_input_validation "metallb" emptyState
        { name := "address_pool", value := "1.2.3.4,5.6.7.8", password := false,
          is_valid := true, failures := [] }).1.cfgValues "metallb" "address_pool"
      = some (ConfigValue.list ["1.2.3.4", "5.6.7.8"]) := by
  have h := (list_coercion_stores_sanitized_list "metallb" emptyState
      { name := "address_pool", value := "1.2.3.4,5.6.7.8", password := false,
        is_valid := true, failures := [] } rfl rfl (by decide)).1
  rw [h]
  decide

/-- Claim C1 counterexample: a valid sensitive edit (password input) for
owner `metallb` — or for any owner when the value contains a comma — IS
written under `ConfigDocument[owner].init.values`, refuting the claim
that sensitive values never reach the config document. -/
theorem sensitive_edit_written_to_config_counterexample :
    ((collapsible_input_validation "metallb" emptyState
        { name := "address_pool", value := "ab", password := true,
          is_valid := true, failures := [] }).1.cfgValues "metallb" "address_pool"
      = some (ConfigValue.list ["ab"])) ∧
    emptyState.cfgValues "metallb" "address_pool" = none ∧
    ((collapsible_input_validation "nextcloud" emptyState
        { name := "admin_password", value := "pass,word", password := true,
          is_valid := true, failures := [] }).1.cfgValues "nextcloud" "admin_password"
      = some (ConfigValue.list ["pass", "word"])) ∧
    emptyState.cfgValues "nextcloud" "admin_password" = none := by
  decide

/-- Claim C1 (amended): a valid sensitive edit always stores the raw
value into SensitiveCache and never requests persistence; the config
document is untouched when the owner is outside `{metallb, vouch}` and
the value has no comma, but otherwise the sanitized list is written into
`ConfigDocument[owner].init.values` despite the field being sensitive. -/
theorem sensitive_edit_behavior (app_name : String) (σ : WidgetState)
    (e : InputChangedEvent)
    (hvalid : e.is_valid = true) (hpw : e.password = true) :
    ((collapsible_input_validation app_name σ e).1.sensitive_values app_name e.name
      = some e.value) ∧
    ((flat_input_validation app_name σ e).1.sensitive_values app_name e.name
      = some e.value) ∧
    ((["metallb", "vouch"].contains app_name || contains_comma e.value) = false →
      (collapsible_input_validation app_name σ e).1.cfgValues = σ.cfgValues ∧
      (flat_input_validation app_name σ e).1.cfgValues = σ.cfgValues) ∧
    ((["metallb", "vouch"].contains app_name || contains_comma e.value) = true →
      ((collapsible_input_validation app_name σ e).1.cfgValues app_name e.name
        = some (ConfigValue.list (create_sanitized_list e.value))) ∧
      ((flat_input_validation app_name σ e).1.cfgValues app_name e.name
        = some (ConfigValue.list (create_sanitized_list e.value)))) ∧
    Effect.write_yaml ∉ (collapsible_input_validation app_name σ e).2 ∧
    Effect.write_yaml ∉ (flat_input_validation app_name σ e).2 := by
  unfold collapsible_input_validation flat_input_validation
  rw [hvalid, hpw]
  by_cases hc : (["metallb", "vouch"].contains app_name || contains_comma e.value) = true
  · rw [hc]
    simp [setValue, setSensitive, hc]
  · rw [Bool.not_eq_true] at hc
    rw [hc]
    simp [setValue, setSensitive, hc]

/-- Claim C1 witness: a sensitive edit for owner `argocd` lands in the
sensitive cache. -/
theorem sensitive_edit_behavior_witness :
    (collapsible_input_validation "argocd" emptyState
        { name := "token", value := "ab", password := true, is_valid := true,
          failures := [] }).1.sensitive_values "argocd" "token" = some "ab" :=
  (sensitive_edit_behavior "argocd" emptyState
    { name := "token", value := "ab", password := true, is_valid := true,
      failures := [] } rfl rfl).1

/-- Claim C5: a non-empty sequence value is flattened to a single
comma-joined display string — the elements joined with `", "` when the
first element is a string, the first inner sequence joined with `", "`
when the first element is itself a sequence — the joined string is what
the immediate validation runs on, and the field is never marked
sensitive; in both variants. -/
theorem sequence_value_flattened_to_joined_string (pg : String → String)
    (es : SecretRef → String) (app_name : String)
    (tooltips : String → Option String) (key : String) :
    (∀ l : List String, l ≠ [] →
      (collapsible_generate_input_row pg es app_name tooltips key (.seq l)).map
          InputField.value = some (str_join ", " l) ∧
      (collapsible_generate_input_row pg es app_name tooltips key (.seq l)).map
          InputField.password = some false ∧
      (collapsible_generate_input_row pg es app_name tooltips key (.seq l)).map
          InputField.initial_valid = some (length2_valid (str_join ", " l))) ∧
    (∀ l : List (List String), l ≠ [] →
      (collapsible_generate_input_row pg es app_name tooltips key (.seqOfSeq l)).map
          InputField.value = some (str_join ", " (l.headD [])) ∧
      (collapsible_generate_input_row pg es app_name tooltips key (.seqOfSeq l)).map
          InputField.password = some false ∧
      (collapsible_generate_input_row pg es app_name tooltips key (.seqOfSeq l)).map
          InputField.initial_valid = some (length2_valid (str_join ", " (l.headD [])))) ∧
    (∀ l : List String, l ≠ [] →
      (flat_generate_input_row pg es app_name tooltips key (.seq l)).value
          = str_join ", " l ∧
      (flat_generate_input_row pg es app_name tooltips key (.seq l)).password = false ∧
      (flat_generate_input_row pg es app_name tooltips key (.seq l)).initial_valid
          = length2_valid (str_join ", " l)) ∧
    (∀ l : List (List String), l ≠ [] →
      (flat_generate_input_row pg es app_name tooltips key (.seqOfSeq l)).value
          = str_join ", " (l.headD []) ∧
      (flat_generate_input_row pg es app_name tooltips key (.seqOfSeq l)).password = false ∧
      (flat_generate_input_row pg es app_name tooltips key (.seqOfSeq l)).initial_valid
          = length2_valid (str_join ", " (l.headD []))) := by
  refine ⟨fun l hl => ?_, fun l hl => ?_, fun l hl => ?_, fun l hl => ?_⟩ <;>
    obtain ⟨a, as, rfl⟩ := List.exists_cons_of_ne_nil hl <;>
    simp only [collapsible_generate_input_row, flat_generate_input_row, truthy,
      List.isEmpty_cons, Bool.not_false, if_true] <;>
    first
      | exact ⟨trivial, trivial, trivial⟩
      | (cases htt : tooltips key <;> simp only [htt] <;> split_ifs <;> simp_all)

/-- Claim C5 witness: the sequence `["a", "b"]` is displayed as the
joined string `"a, b"`. -/
theorem sequence_value_witness :
    (collapsible_generate_input_row (fun s => s) (fun _ => "") "argocd"
        (fun _ => none) "k" (.seq ["a", "b"])).map InputField.value = some "a, b" := by
  have h := ((sequence_value_flattened_to_joined_string (fun s => s) (fun _ => "")
      "argocd" (fun _ => none) "k").1 ["a", "b"] (by decide)).1
  rw [h]
  decide

/-- Claim C6: a (non-empty) structured secret reference yields a field
marked sensitive (`password = true`) whose display value is the result of
the external secret extraction applied to the reference; in both
variants. -/
theorem secret_reference_marks_sensitive (pg : String → String)
    (es : SecretRef → String) (app_name : String)
    (tooltips : String → Option String) (key : String)
    (r : SecretRef) (hr : r ≠ []) :
    (collapsible_generate_input_row pg es app_name tooltips key (.secret r)).map
        InputField.password = some true ∧
    (collapsible_generate_input_row pg es app_name tooltips key (.secret r)).map
        InputField.value = some (es r) ∧
    (flat_generate_input_row pg es app_name tooltips key (.secret r)).password = true ∧
    (flat_generate_input_row pg es app_name tooltips key (.secret r)).value = es r := by
  obtain ⟨a, as, rfl⟩ := List.exists_cons_of_ne_nil hr
  simp only [collapsible_generate_input_row, flat_generate_input_row, truthy,
    List.isEmpty_cons, Bool.not_false, if_true]
  cases htt : tooltips key <;> simp only [htt] <;> split_ifs <;> simp_all

/-- Claim C6 witness: a secret reference row is marked sensitive. -/
theorem secret_reference_witness :
    (collapsible_generate_input_row (fun s => s) (fun _ => "supersecret") "argocd"
        (fun _ => none) "token" (.secret [("value_from", "env")])).map
        InputField.password = some true :=
  (secret_reference_marks_sensitive (fun s => s) (fun _ => "supersecret") "argocd"
    (fun _ => none) "token" [("value_from", "env")] (by decide)).1

/-- Claim C7: a switch change writes the boolean into
`ConfigDocument[owner].init[switchName]`, requests persistence exactly
once, and emits exactly one informational notice iff the switch is
`create_minio_tenant` and the new value is true; in both variants. -/
theorem switch_change_writes_and_notifies_minio_only (app_name : String)
    (σ : WidgetState) (e : SwitchChangedEvent) :
    ((collapsible_update_base_yaml_for_switch app_name σ e).1.cfgInit app_name e.name
      = some e.value) ∧
    ((flat_update_base_yaml_for_switch app_name σ e).1.cfgInit app_name e.name
      = some e.value) ∧
    (collapsible_update_base_yaml_for_switch app_name σ e).2.count Effect.write_yaml = 1 ∧
    (flat_update_base_yaml_for_switch app_name σ e).2.count Effect.write_yaml = 1 ∧
    ((collapsible_update_base_yaml_for_switch app_name σ e).2.filter
        is_informational).length
      = (if e.name = "create_minio_tenant" ∧ e.value = true then 1 else 0) ∧
    ((flat_update_base_yaml_for_switch app_name σ e).2.filter
        is_informational).length
      = (if e.name = "create_minio_tenant" ∧ e.value = true then 1 else 0) := by
  unfold collapsible_update_base_yaml_for_switch flat_update_base_yaml_for_switch
  cases hv : e.value <;>
    by_cases hn : e.name = "create_minio_tenant" <;>
      simp [setInit, hv, hn, is_informational, List.count_cons, List.count_nil]

/-- Claim C8 counterexample: an explicit tooltip that is present but
empty is NOT used as the help text — the code treats it as falsy and
falls through to the generated phrase, refuting the claim that the
explicit tooltip wins whenever present. -/
theorem empty_explicit_tooltip_overridden_counterexample :
    (collapsible_generate_input_row (fun s => "please enter " ++ s) (fun _ => "")
        "argocd" (fun _ => some "") "k" (.str "ab")).map InputField.tooltip
      = some "please enter k." ∧ "please enter k." ≠ "" := by
  decide

/-- Claim C8 (amended): help text is resolved as the explicit tooltip
when present and non-empty; otherwise the environment-variable guidance
for sensitive fields; otherwise the fixed `s3_provider` message;
otherwise a phrase generated from the label; and for owner `metallb` the
DNS-prerequisite suffix is appended in every case — as captured by
`help_text_spec`, for both variants. -/
theorem help_text_resolution (pg : String → String) (es : SecretRef → String)
    (app_name : String) (tooltips : String → Option String)
    (key : String) (v : InputValue) (f : InputField)
    (h : collapsible_generate_input_row pg es app_name tooltips key v = some f) :
    f.tooltip = help_text_spec pg app_name key (tooltips key) f.password ∧
    (flat_generate_input_row pg es app_name tooltips key v).tooltip
      = help_text_spec pg app_name key (tooltips key)
          (flat_generate_input_row pg es app_name tooltips key v).password := by
  have hf := row_agrees pg es app_name tooltips key v f h
  refine ⟨?_, flat_tooltip_eq_spec pg es app_name tooltips key v⟩
  rw [← hf]
  exact flat_tooltip_eq_spec pg es app_name tooltips key v

/-- Claim C8 witness: a sensitive field without an explicit tooltip gets
the environment-variable guidance. -/
theorem help_text_resolution_witness :
    InputField.tooltip
        { name := "token", label := "token", placeholder := "token", value := "sec",
          password := true, tooltip := sensitive_tooltip "argocd" "token",
          initial_valid := true }
      = help_text_spec (fun s => s) "argocd" "token" none true :=
  (help_text_resolution (fun s => s) (fun _ => "sec") "argocd" (fun _ => none)
    "token" (.secret [("value_from", "env")])
    { name := "token", label := "token", placeholder := "token", value := "sec",
      password := true, tooltip := sensitive_tooltip "argocd" "token",
      initial_valid := true } (by decide)).1

/-- Claim C9 counterexample: the two variants do not render the same
keys — the flat variant skips the key `trusted_key_servers` while the
collapsible variant renders a row for it. -/
theorem variants_differ_on_trusted_key_servers :
    ((collapsible_on_mount (fun s => s) (fun _ => "") "argocd" (fun _ => some "tip")
        [("trusted_key_servers", InputValue.str "ab")]).map List.length = some 1) ∧
    (flat_on_mount (fun s => s) (fun _ => "") "argocd" (fun _ => some "tip")
        [("trusted_key_servers", InputValue.str "ab")]).length = 0 := by
  decide

/-- Claim C9 (amended): the change handlers of the two variants are
identical functions; whenever the collapsible variant successfully
constructs a row the flat variant constructs the same field; and form
materialization agrees on every inputs mapping containing no
`trusted_key_servers` key on which the collapsible construction
succeeds. -/
theorem variants_agree_when_both_defined :
    (∀ (app_name : String) (σ : WidgetState) (e : InputChangedEvent),
      collapsible_input_validation app_name σ e = flat_input_validation app_name σ e) ∧
    (∀ (app_name : String) (σ : WidgetState) (e : SwitchChangedEvent),
      collapsible_update_base_yaml_for_switch app_name σ e
        = flat_update_base_yaml_for_switch app_name σ e) ∧
    (∀ (pg : String → String) (es : SecretRef → String) (app_name : String)
       (tooltips : String → Option String) (key : String) (v : InputValue)
       (f : InputField),
      collapsible_generate_input_row pg es app_name tooltips key v = some f →
      flat_generate_input_row pg es app_name tooltips key v = f) ∧
    (∀ (pg : String → String) (es : SecretRef → String) (app_name : String)
       (tooltips : String → Option String) (inputs : List (String × InputValue))
       (fs : List InputField),
      (∀ kv ∈ inputs, kv.1 ≠ "trusted_key_servers") →
      collapsible_on_mount pg es app_name tooltips inputs = some fs →
      flat_on_mount pg es app_name tooltips inputs = fs) :=
  ⟨fun _ _ _ => rfl, fun _ _ _ => rfl, row_agrees, on_mount_agrees⟩

/-- Claim C9 witness: on a plain string key both variants produce the
same concrete field. -/
theorem variants_agree_witness :
    flat_generate_input_row (fun s => s) (fun _ => "") "argocd" (fun _ => some "tip")
        "host" (.str "example.com")
      = { name := "host", label := "host", placeholder := "host",
          value := "example.com", password := false, tooltip := "tip",
          initial_valid := true } :=
  variants_agree_when_both_defined.2.2.1 (fun s => s) (fun _ => "") "argocd"
    (fun _ => some "tip") "host" (.str "example.com") _ (by decide)

/-- Claim C10: on a falsy source value with no explicit tooltip entry,
the collapsible variant reads the unset `password` entry and fails with a
lookup error (`none`), while the flat variant succeeds and produces a
non-sensitive field with an empty display value. -/
theorem collapsible_row_fails_on_falsy_value_without_tooltip (pg : String → String)
    (es : SecretRef → String) (app_name : String)
    (tooltips : String → Option String) (key : String) (v : InputValue)
    (hfalsy : truthy v = false) (htt : tooltips key = none) :
    collapsible_generate_input_row pg es app_name tooltips key v = none ∧
    (flat_generate_input_row pg es app_name tooltips key v).password = false ∧
    (flat_generate_input_row pg es app_name tooltips key v).value = "" := by
  simp [collapsible_generate_input_row, flat_generate_input_row, hfalsy, htt]

/-- Claim C10 witness: the empty-string value with no tooltip entry makes
collapsible row construction fail. -/
theorem collapsible_row_fails_witness :
    collapsible_generate_input_row (fun s => s) (fun _ => "") "argocd"
        (fun _ => none) "k" (.str "") = none :=
  (collapsible_row_fails_on_falsy_value_without_tooltip (fun s => s) (fun _ => "")
    "argocd" (fun _ => none) "k" (.str "") (by decide) rfl).1
